import Mathlib

/-!
# sys/mman.h (multiplatform-mman, linux)

A shallow embedding of the header `mman/linux/include/sys/mman.h`: its
`#define`d flag constants, the failure sentinel `MAP_FAILED`, and the table
of function declarations it produces under each preprocessor configuration.
-/

namespace Mman

/-! ## Flag constants (lines 42-73 of the header) -/

/-- Page can be read. -/
def PROT_READ : Nat := 0x1
/-- Page can be written. -/
def PROT_WRITE : Nat := 0x2
/-- Page can be executed. -/
def PROT_EXEC : Nat := 0x4
/-- Page can not be accessed. -/
def PROT_NONE : Nat := 0x0

/-- Stack-like segment. -/
def MAP_GROWSDOWN : Nat := 0x00100
/-- ETXTBSY. -/
def MAP_DENYWRITE : Nat := 0x00800
/-- Mark it as an executable. -/
def MAP_EXECUTABLE : Nat := 0x01000
/-- Lock the mapping. -/
def MAP_LOCKED : Nat := 0x02000
/-- Do not check for reservations. -/
def MAP_NORESERVE : Nat := 0x04000
/-- Populate (prefault) pagetables. -/
def MAP_POPULATE : Nat := 0x08000
/-- Do not block on IO. -/
def MAP_NONBLOCK : Nat := 0x10000
/-- Allocation is for a stack. -/
def MAP_STACK : Nat := 0x20000
/-- Create huge page mapping. -/
def MAP_HUGETLB : Nat := 0x40000
/-- Perform synchronous page faults for the mapping. -/
def MAP_SYNC : Nat := 0x80000
/-- MAP_FIXED but do not unmap underlying mapping. -/
def MAP_FIXED_NOREPLACE : Nat := 0x100000

/-- Share changes. -/
def MAP_SHARED : Nat := 0x01
/-- Changes are private. -/
def MAP_PRIVATE : Nat := 0x02

/-- The `#ifdef __MAP_ANONYMOUS` ladder of lines 64-68: the argument is the
value of the macro `__MAP_ANONYMOUS` when the platform supplies one. -/
def MAP_ANONYMOUS (__MAP_ANONYMOUS : Option Nat) : Nat :=
  match __MAP_ANONYMOUS with
  | some v => v
  | none => 0x20

/-- Line 69: `#define MAP_ANON MAP_ANONYMOUS`. -/
def MAP_ANON (__MAP_ANONYMOUS : Option Nat) : Nat := MAP_ANONYMOUS __MAP_ANONYMOUS

/-- Sync memory asynchronously. -/
def MS_ASYNC : Nat := 1
/-- Synchronous memory sync. -/
def MS_SYNC : Nat := 4
/-- Invalidate the caches. -/
def MS_INVALIDATE : Nat := 2

/-- Line 76: `#define MAP_FAILED ((void *) -1)`, the int `-1` converted to a
pointer of `w` bits, as an address value. -/
def MAP_FAILED (w : Nat) : Nat := ((-1 : Int) % (2 : Int) ^ w).toNat

/-! ## Combining flags with `|` -/

/-- The flag word a caller builds from a set of constants: their bitwise OR. -/
def orAll (s : Finset Nat) : Nat := s.fold (fun a b => a ||| b) 0 id

/-- The three access-right bits. -/
def protBits : Finset Nat := {PROT_READ, PROT_WRITE, PROT_EXEC}

/-- The behaviour modifiers of lines 47-59. -/
def mapModifiers : Finset Nat :=
  {MAP_GROWSDOWN, MAP_DENYWRITE, MAP_EXECUTABLE, MAP_LOCKED, MAP_NORESERVE, MAP_POPULATE,
   MAP_NONBLOCK, MAP_STACK, MAP_HUGETLB, MAP_SYNC, MAP_FIXED_NOREPLACE}

/-- Every `MAP_*` constant other than the two sharing modes, with
`MAP_ANONYMOUS` at its default. -/
def mapOthers : Finset Nat := insert (MAP_ANONYMOUS none) mapModifiers

/-- Every `MAP_*` flag constant of the header, `MAP_ANONYMOUS` being at its
   default value. -/
def mapFlags : Finset Nat := insert MAP_SHARED (insert MAP_PRIVATE mapOthers)

/-- A set of flags that are non-zero and pairwise share no bit. -/
def BitDisjoint (u : Finset Nat) : Prop :=
  (∀ x ∈ u, x ≠ 0) ∧ ∀ x ∈ u, ∀ y ∈ u, y ≠ x → y &&& x = 0

instance (u : Finset Nat) : Decidable (BitDisjoint u) := by
  unfold BitDisjoint; infer_instance

/-! ## The macro table -/

/-- The integer flag macros of lines 42-73, in source order, each with the
value its `#define` gives. The argument is the platform's `__MAP_ANONYMOUS`,
when it supplies one. -/
def flagDefines (__MAP_ANONYMOUS : Option Nat) : List (String × Nat) :=
  [("PROT_READ", PROT_READ), ("PROT_WRITE", PROT_WRITE), ("PROT_EXEC", PROT_EXEC),
   ("PROT_NONE", PROT_NONE),
   ("MAP_GROWSDOWN", MAP_GROWSDOWN), ("MAP_DENYWRITE", MAP_DENYWRITE),
   ("MAP_EXECUTABLE", MAP_EXECUTABLE), ("MAP_LOCKED", MAP_LOCKED),
   ("MAP_NORESERVE", MAP_NORESERVE), ("MAP_POPULATE", MAP_POPULATE),
   ("MAP_NONBLOCK", MAP_NONBLOCK), ("MAP_STACK", MAP_STACK), ("MAP_HUGETLB", MAP_HUGETLB),
   ("MAP_SYNC", MAP_SYNC), ("MAP_FIXED_NOREPLACE", MAP_FIXED_NOREPLACE),
   ("MAP_SHARED", MAP_SHARED), ("MAP_PRIVATE", MAP_PRIVATE),
   ("MAP_ANONYMOUS", MAP_ANONYMOUS __MAP_ANONYMOUS), ("MAP_ANON", MAP_ANON __MAP_ANONYMOUS),
   ("MS_ASYNC", MS_ASYNC), ("MS_SYNC", MS_SYNC), ("MS_INVALIDATE", MS_INVALIDATE)]

/-- Value of a flag macro, `none` when the header has no `#define` for the name. -/
def flagValue (__MAP_ANONYMOUS : Option Nat) (name : String) : Option Nat :=
  (flagDefines __MAP_ANONYMOUS).lookup name

/-! ## Build configurations and declarations (lines 27-39 and 78-181) -/

/-- The feature-test macros the conditionals of the header read: `true` when
the macro is defined. -/
structure Config where
  __USE_FILE_OFFSET64 : Bool
  __REDIRECT_NTH : Bool
  __USE_LARGEFILE64 : Bool
  __USE_MISC : Bool
  __USE_XOPEN2K : Bool
  __USE_GNU : Bool
deriving DecidableEq, Fintype

/-- The C types that occur in the prototypes of the header. -/
inductive CType
  | void
  | int
  | size_t
  | mode_t
  | __off_t
  | __off64_t
  | ptr_void
  | ptr_const_void
  | ptr_unsigned_char
  | ptr_const_char
deriving DecidableEq

/-- Lines 27-34: the type `off_t` is made to name. -/
def off_t (c : Config) : CType :=
  if !c.__USE_FILE_OFFSET64 then CType.__off_t else CType.__off64_t

/-- One `extern` function declaration: `nothrow` records the `__THROW`
marker (or the `_NTH` of `__REDIRECT_NTH`), `asmName` the symbol a redirect
binds the function to. -/
structure FunDecl where
  name : String
  ret : CType
  params : List CType
  variadic : Bool
  nothrow : Bool
  asmName : Option String
deriving DecidableEq

/-- Lines 89-90. -/
def decl_mmap : FunDecl :=
  ⟨"mmap", .ptr_void, [.ptr_void, .size_t, .int, .int, .int, .__off_t], false, true, none⟩
/-- Lines 93-96: `__REDIRECT_NTH (mmap, (...), mmap64)`. -/
def decl_mmap_redirect : FunDecl :=
  ⟨"mmap", .ptr_void, [.ptr_void, .size_t, .int, .int, .int, .__off64_t], false, true,
    some "mmap64"⟩
/-- Lines 102-103. -/
def decl_mmap64 : FunDecl :=
  ⟨"mmap64", .ptr_void, [.ptr_void, .size_t, .int, .int, .int, .__off64_t], false, true, none⟩
/-- Line 108. -/
def decl_munmap : FunDecl := ⟨"munmap", .int, [.ptr_void, .size_t], false, true, none⟩
/-- Line 113. -/
def decl_mprotect : FunDecl :=
  ⟨"mprotect", .int, [.ptr_void, .size_t, .int], false, true, none⟩
/-- Line 121: no `__THROW`. -/
def decl_msync : FunDecl := ⟨"msync", .int, [.ptr_void, .size_t, .int], false, false, none⟩
/-- Line 126. -/
def decl_madvise : FunDecl := ⟨"madvise", .int, [.ptr_void, .size_t, .int], false, true, none⟩
/-- Line 130. -/
def decl_posix_madvise : FunDecl :=
  ⟨"posix_madvise", .int, [.ptr_void, .size_t, .int], false, true, none⟩
/-- Line 135. -/
def decl_mlock : FunDecl := ⟨"mlock", .int, [.ptr_const_void, .size_t], false, true, none⟩
/-- Line 138. -/
def decl_munlock : FunDecl := ⟨"munlock", .int, [.ptr_const_void, .size_t], false, true, none⟩
/-- Line 143. -/
def decl_mlockall : FunDecl := ⟨"mlockall", .int, [.int], false, true, none⟩
/-- Line 147. -/
def decl_munlockall : FunDecl := ⟨"munlockall", .int, [], false, true, none⟩
/-- Lines 155-156. -/
def decl_mincore : FunDecl :=
  ⟨"mincore", .int, [.ptr_void, .size_t, .ptr_unsigned_char], false, true, none⟩
/-- Lines 165-166. -/
def decl_mremap : FunDecl :=
  ⟨"mremap", .ptr_void, [.ptr_void, .size_t, .size_t, .int], true, true, none⟩
/-- Lines 170-171. -/
def decl_remap_file_pages : FunDecl :=
  ⟨"remap_file_pages", .int, [.ptr_void, .size_t, .int, .size_t, .int], false, true, none⟩
/-- Line 176: no `__THROW`. -/
def decl_shm_open : FunDecl :=
  ⟨"shm_open", .int, [.ptr_const_char, .int, .mode_t], false, false, none⟩
/-- Line 179: no `__THROW`. -/
def decl_shm_unlink : FunDecl := ⟨"shm_unlink", .int, [.ptr_const_char], false, false, none⟩

/-- The function declarations the header produces under a configuration, in
source order (lines 88-179). -/
def declarations (c : Config) : List FunDecl :=
  (if !c.__USE_FILE_OFFSET64 then [decl_mmap]
   else if c.__REDIRECT_NTH then [decl_mmap_redirect] else [])
  ++ (if c.__USE_LARGEFILE64 then [decl_mmap64] else [])
  ++ [decl_munmap, decl_mprotect, decl_msync]
  ++ (if c.__USE_MISC then [decl_madvise] else [])
  ++ (if c.__USE_XOPEN2K then [decl_posix_madvise] else [])
  ++ [decl_mlock, decl_munlock, decl_mlockall, decl_munlockall]
  ++ (if c.__USE_MISC then [decl_mincore] else [])
  ++ (if c.__USE_GNU then [decl_mremap, decl_remap_file_pages] else [])
  ++ [decl_shm_open, decl_shm_unlink]

/-- Line 98: `#define mmap mmap64` is in force exactly when
`__USE_FILE_OFFSET64` is defined and `__REDIRECT_NTH` is not. -/
def mmapIsMacro (c : Config) : Bool := c.__USE_FILE_OFFSET64 && !c.__REDIRECT_NTH

/-- The name a caller's identifier stands for after macro expansion. -/
def expandName (c : Config) (name : String) : String :=
  if name = "mmap" ∧ mmapIsMacro c = true then "mmap64" else name

/-- The declaration a call of `name` is checked against, if there is one. -/
def findDecl (c : Config) (name : String) : Option FunDecl :=
  (declarations c).find? (fun d => d.name == expandName c name)

/-- Every macro name the header defines under a configuration. -/
def definedNames (c : Config) (__MAP_ANONYMOUS : Option Nat) : List String :=
  ["_SYS_MMAN_H", "__need_size_t", "__off_t_defined", "__mode_t_defined"]
  ++ (flagDefines __MAP_ANONYMOUS).map Prod.fst
  ++ ["MAP_FAILED"]
  ++ (if mmapIsMacro c then ["mmap"] else [])

/-- Widths in bits of the two offset typedefs the prototypes use. They come
from `<bits/types.h>`, which the header includes and which is not part of
the repository, so they are parameters. -/
structure Platform where
  __off_t_bits : Nat
  __off64_t_bits : Nat
deriving DecidableEq

/-- Width of an offset type on a platform; `none` for the other types. -/
def offsetBits (p : Platform) : CType → Option Nat
  | .__off_t => some p.__off_t_bits
  | .__off64_t => some p.__off64_t_bits
  | _ => none

/-- The type of the sixth (`__offset`) parameter of a declaration. -/
def offsetParam (d : FunDecl) : Option CType := d.params.get? 5

/-- The offset type of the `mmap` a caller sees under a configuration. -/
def mmapOffsetType (c : Config) : Option CType := (findDecl c "mmap").bind offsetParam

/-- The offset type of `mmap64` under a configuration. -/
def mmap64OffsetType (c : Config) : Option CType := (findDecl c "mmap64").bind offsetParam

/-- Width in bits of the offset parameter of `mmap`. -/
def mmapOffsetBits (p : Platform) (c : Config) : Option Nat :=
  (mmapOffsetType c).bind (offsetBits p)

/-- Width in bits of the offset parameter of `mmap64`. -/
def mmap64OffsetBits (p : Platform) (c : Config) : Option Nat :=
  (mmap64OffsetType c).bind (offsetBits p)

/-! ## Helper lemmas on `orAll` -/

theorem orAll_empty : orAll ∅ = 0 := rfl

theorem orAll_insert {a : Nat} {s : Finset Nat} (h : a ∉ s) :
    orAll (insert a s) = a ||| orAll s := by
  unfold orAll
  rw [Finset.fold_insert h]
  rfl

theorem lor_eq_add_of_land_eq_zero (a : Nat) : ∀ b : Nat, a &&& b = 0 → a ||| b = a + b := by
  induction a using Nat.strongRecOn with
  | _ a ih =>
    intro b h
    by_cases ha : a = 0
    · simp [ha]
    · have h2 : a / 2 &&& b / 2 = 0 := by rw [← Nat.and_div_two, h]
      have hdiv : (a ||| b) / 2 = a / 2 + b / 2 := by
        rw [Nat.or_div_two, ih (a / 2) (by omega) (b / 2) h2]
      have hand : ¬ (a % 2 = 1 ∧ b % 2 = 1) := by
        rw [← Nat.and_mod_two_eq_one, h]; decide
      have hor := @Nat.or_mod_two_eq_one a b
      omega

/-- A flag that is bit-disjoint from every member of a set is bit-disjoint
    from the OR of the set. -/
theorem orAll_land_eq_zero (x : Nat) (s : Finset Nat) (h : ∀ y ∈ s, y &&& x = 0) :
    orAll s &&& x = 0 := by
  induction s using Finset.induction_on with
  | empty => simp [orAll_empty]
  | insert ha ih =>
    rw [orAll_insert ha, Nat.and_distrib_right, h _ (Finset.mem_insert_self _ _),
      ih (fun y hy => h y (Finset.mem_insert_of_mem hy))]
    rfl

/-- In a set of pairwise bit-disjoint flags, masking the OR with a member
    gives that member back. -/
theorem orAll_land_mem (x : Nat) (s : Finset Nat) (hx : x ∈ s)
    (h : ∀ y ∈ s, y ≠ x → y &&& x = 0) : orAll s &&& x = x := by
  have hs : s = insert x (s.erase x) := (Finset.insert_erase hx).symm
  rw [hs, orAll_insert (Finset.not_mem_erase x s), Nat.and_distrib_right, Nat.and_self,
    orAll_land_eq_zero x (s.erase x) (fun y hy => h y (Finset.mem_of_mem_erase hy)
      (Finset.ne_of_mem_erase hy))]
  simp

theorem orAll_land_of_subset {u : Finset Nat} (hu : BitDisjoint u) {s : Finset Nat}
    (hs : s ⊆ u) {x : Nat} (hx : x ∈ u) : orAll s &&& x = if x ∈ s then x else 0 := by
  split
  · next hxs => exact orAll_land_mem x s hxs (fun y hy hne => hu.2 x hx y (hs hy) hne)
  · next hxs =>
    exact orAll_land_eq_zero x s (fun y hy => hu.2 x hx y (hs hy) (fun e => hxs (e ▸ hy)))

theorem orAll_injOn {u : Finset Nat} (hu : BitDisjoint u) {a b : Finset Nat}
    (ha : a ⊆ u) (hb : b ⊆ u) (h : orAll a = orAll b) : a = b := by
  ext x
  by_cases hx : x ∈ u
  · have e1 := orAll_land_of_subset hu ha hx
    have e2 := orAll_land_of_subset hu hb hx
    rw [h] at e1
    have hx0 := hu.1 x hx
    constructor
    · intro hxa
      by_contra hxb
      rw [if_pos hxa] at e1
      rw [if_neg hxb] at e2
      exact hx0 (e1.symm.trans e2)
    · intro hxb
      by_contra hxa
      rw [if_neg hxa] at e1
      rw [if_pos hxb] at e2
      exact hx0 (e2.symm.trans e1)
  · exact ⟨fun hxa => absurd (ha hxa) hx, fun hxb => absurd (hb hxb) hx⟩

theorem orAll_eq_sum {u : Finset Nat} (hu : BitDisjoint u) (s : Finset Nat) (hs : s ⊆ u) :
    orAll s = s.sum id := by
  induction s using Finset.induction_on with
  | empty => rfl
  | @insert a t ha ih =>
    have ht : t ⊆ u := fun y hy => hs (Finset.mem_insert_of_mem hy)
    have hau : a ∈ u := hs (Finset.mem_insert_self _ _)
    have hz : a &&& orAll t = 0 := by
      rw [Nat.and_comm, orAll_land_of_subset hu ht hau, if_neg ha]
    rw [orAll_insert ha, Finset.sum_insert ha, lor_eq_add_of_land_eq_zero a _ hz, ih ht]
    rfl

theorem bitDisjoint_mapFlags : BitDisjoint mapFlags := by decide

theorem bitDisjoint_protBits : BitDisjoint protBits := by decide

theorem orAll_le_of_subset {u : Finset Nat} (hu : BitDisjoint u) {s : Finset Nat}
    (hs : s ⊆ u) : orAll s ≤ orAll u := by
  rw [orAll_eq_sum hu s hs, orAll_eq_sum hu u (Finset.Subset.refl u)]
  exact Finset.sum_le_sum_of_subset hs

theorem MAP_FAILED_eq (w : Nat) : MAP_FAILED w = 2 ^ w - 1 := by
  unfold MAP_FAILED
  have hpos : (0 : Int) < (2 : Int) ^ w := by positivity
  have h1 : (-1 : Int) % (2 : Int) ^ w = (2 : Int) ^ w - 1 := by
    rw [← Int.add_emod_self]
    have e : (-1 : Int) + (2 : Int) ^ w = (2 : Int) ^ w - 1 := by ring
    rw [e]
    exact Int.emod_eq_of_lt (by omega) (by omega)
  rw [h1]
  have hn : (1 : Nat) ≤ 2 ^ w := Nat.one_le_two_pow
  have h2 : ((2 : Int) ^ w - 1) = (((2 ^ w - 1 : Nat)) : Int) := by
    rw [Nat.cast_sub hn]
    simp
  rw [h2, Int.toNat_natCast]

theorem MAP_FAILED_odd (w : Nat) (hw : 1 ≤ w) : MAP_FAILED w % 2 = 1 := by
  rw [MAP_FAILED_eq]
  obtain ⟨k, rfl⟩ : ∃ k, w = k + 1 := ⟨w - 1, by omega⟩
  have hk : (1 : Nat) ≤ 2 ^ k := Nat.one_le_two_pow
  rw [Nat.pow_succ]
  omega

/-! ## The flag table -/

/-- C1: every constant of the flag table has exactly the value the table
gives; `MAP_ANONYMOUS` is `0x20` when the platform supplies no
`__MAP_ANONYMOUS` and the supplied value otherwise, and `MAP_ANON` equals
`MAP_ANONYMOUS` in both configurations. The macro table of the header binds
each name to the same value. -/
theorem flag_table_values :
    (PROT_NONE = 0x0 ∧ PROT_READ = 0x1 ∧ PROT_WRITE = 0x2 ∧ PROT_EXEC = 0x4) ∧
    (MAP_SHARED = 0x01 ∧ MAP_PRIVATE = 0x02) ∧
    MAP_FIXED_NOREPLACE = 0x100000 ∧
    (MS_ASYNC = 1 ∧ MS_SYNC = 4 ∧ MS_INVALIDATE = 2) ∧
    MAP_ANONYMOUS none = 0x20 ∧
    (∀ v : Nat, MAP_ANONYMOUS (some v) = v) ∧
    (∀ a : Option Nat, MAP_ANON a = MAP_ANONYMOUS a) ∧
    (∀ a : Option Nat,
      flagValue a "PROT_NONE" = some 0x0 ∧ flagValue a "PROT_READ" = some 0x1 ∧
      flagValue a "PROT_WRITE" = some 0x2 ∧ flagValue a "PROT_EXEC" = some 0x4 ∧
      flagValue a "MAP_SHARED" = some 0x01 ∧ flagValue a "MAP_PRIVATE" = some 0x02 ∧
      flagValue a "MAP_FIXED_NOREPLACE" = some 0x100000 ∧
      flagValue a "MS_ASYNC" = some 1 ∧ flagValue a "MS_SYNC" = some 4 ∧
      flagValue a "MS_INVALIDATE" = some 2 ∧
      flagValue a "MAP_ANONYMOUS" = some (a.getD 0x20) ∧
      flagValue a "MAP_ANON" = some (a.getD 0x20)) := by
  refine ⟨by decide, by decide, by decide, by decide, rfl, fun _ => rfl, fun _ => rfl, ?_⟩
  intro a
  cases a <;>
    exact ⟨rfl, rfl, rfl, rfl, rfl, rfl, rfl, rfl, rfl, rfl, rfl, rfl⟩

/-- C2: the protection constants are OR-combinable without loss. For subsets
A and B of the three access-right bits the ORs agree exactly when A = B, the
mask is at most 7, the mask is `PROT_NONE` exactly for the empty subset
(`PROT_NONE` being the identity of OR and sharing no bit with a right), and
the mask `PROT_EXEC` has the `PROT_READ` bit clear. -/
theorem prot_or_combinable (A B : Finset Nat) (hA : A ⊆ protBits) (hB : B ⊆ protBits) :
    (orAll A = orAll B ↔ A = B) ∧
    orAll A ≤ 7 ∧
    (orAll A = PROT_NONE ↔ A = ∅) ∧
    (∀ x : Nat, PROT_NONE ||| x = x) ∧
    (∀ r ∈ protBits, PROT_NONE &&& r = 0) ∧
    PROT_EXEC &&& PROT_READ = 0 ∧ orAll {PROT_EXEC} &&& PROT_READ = 0 := by
  refine ⟨⟨orAll_injOn bitDisjoint_protBits hA hB, fun h => h ▸ rfl⟩, ?_, ⟨?_, ?_⟩, ?_, ?_, ?_, ?_⟩
  · exact orAll_le_of_subset bitDisjoint_protBits hA
  · intro h
    exact orAll_injOn bitDisjoint_protBits hA (Finset.empty_subset _) h
  · rintro rfl
    rfl
  · intro x
    simp [PROT_NONE]
  · decide
  · decide
  · decide

/-- C2, at a concrete input: read+execute against write. -/
theorem prot_or_combinable_witness :
    ({PROT_READ, PROT_EXEC} : Finset Nat) ⊆ protBits ∧ ({PROT_WRITE} : Finset Nat) ⊆ protBits ∧
    orAll {PROT_READ, PROT_EXEC} = 5 ∧
    (orAll {PROT_READ, PROT_EXEC} = orAll {PROT_WRITE} ↔
      ({PROT_READ, PROT_EXEC} : Finset Nat) = {PROT_WRITE}) ∧
    orAll {PROT_READ, PROT_EXEC} ≤ 7 :=
  ⟨by decide, by decide, by decide,
    (prot_or_combinable {PROT_READ, PROT_EXEC} {PROT_WRITE} (by decide) (by decide)).1,
    (prot_or_combinable {PROT_READ, PROT_EXEC} {PROT_WRITE} (by decide) (by decide)).2.1⟩

/-- C3: `MAP_SHARED` and `MAP_PRIVATE` are non-zero and share no bit, and for
a flag word w = m | x, with m one of the two and x the OR of any set of the
other `MAP_*` constants, w & (MAP_SHARED | MAP_PRIVATE) = m: exactly the
chosen sharing bit is set in w. -/
theorem sharing_mode_survives (m : Nat) (X : Finset Nat)
    (hm : m = MAP_SHARED ∨ m = MAP_PRIVATE) (hX : X ⊆ mapOthers) :
    MAP_SHARED ≠ 0 ∧ MAP_PRIVATE ≠ 0 ∧ MAP_SHARED &&& MAP_PRIVATE = 0 ∧
    (m ||| orAll X) &&& (MAP_SHARED ||| MAP_PRIVATE) = m ∧
    ((m ||| orAll X) &&& MAP_SHARED ≠ 0 ↔ m = MAP_SHARED) ∧
    ((m ||| orAll X) &&& MAP_PRIVATE ≠ 0 ↔ m = MAP_PRIVATE) := by
  have h3 : orAll X &&& (MAP_SHARED ||| MAP_PRIVATE) = 0 :=
    orAll_land_eq_zero _ X (fun y hy => by
      have : ∀ z ∈ mapOthers, z &&& (MAP_SHARED ||| MAP_PRIVATE) = 0 := by decide
      exact this y (hX hy))
  have h1 : orAll X &&& MAP_SHARED = 0 :=
    orAll_land_eq_zero _ X (fun y hy => by
      have : ∀ z ∈ mapOthers, z &&& MAP_SHARED = 0 := by decide
      exact this y (hX hy))
  have h2 : orAll X &&& MAP_PRIVATE = 0 :=
    orAll_land_eq_zero _ X (fun y hy => by
      have : ∀ z ∈ mapOthers, z &&& MAP_PRIVATE = 0 := by decide
      exact this y (hX hy))
  refine ⟨by decide, by decide, by decide, ?_, ?_, ?_⟩
  · rw [Nat.and_distrib_right, h3]
    rcases hm with rfl | rfl <;> decide
  · rw [Nat.and_distrib_right, h1]
    rcases hm with rfl | rfl <;> decide
  · rw [Nat.and_distrib_right, h2]
    rcases hm with rfl | rfl <;> decide

/-- C3, at a concrete input: a private anonymous stack mapping. -/
theorem sharing_mode_survives_witness :
    ({MAP_ANONYMOUS none, MAP_STACK} : Finset Nat) ⊆ mapOthers ∧
    (MAP_PRIVATE ||| orAll {MAP_ANONYMOUS none, MAP_STACK}) &&& (MAP_SHARED ||| MAP_PRIVATE)
      = MAP_PRIVATE :=
  ⟨by decide,
    (sharing_mode_survives MAP_PRIVATE {MAP_ANONYMOUS none, MAP_STACK} (Or.inr rfl)
      (by decide)).2.2.2.1⟩

/-- C4: `MS_ASYNC`, `MS_SYNC` and `MS_INVALIDATE` are non-zero and pairwise
bit-disjoint; the four legal flag words are pairwise distinct, each has
exactly the chosen one of the `MS_ASYNC` and `MS_SYNC` bits set, and its
`MS_INVALIDATE` bit is set exactly when `MS_INVALIDATE` was combined in. -/
theorem msync_flag_words :
    (MS_ASYNC ≠ 0 ∧ MS_SYNC ≠ 0 ∧ MS_INVALIDATE ≠ 0) ∧
    (MS_ASYNC &&& MS_SYNC = 0 ∧ MS_ASYNC &&& MS_INVALIDATE = 0 ∧
      MS_SYNC &&& MS_INVALIDATE = 0) ∧
    [MS_ASYNC, MS_SYNC, MS_ASYNC ||| MS_INVALIDATE, MS_SYNC ||| MS_INVALIDATE].Nodup ∧
    (MS_ASYNC &&& MS_ASYNC ≠ 0 ∧ MS_ASYNC &&& MS_SYNC = 0 ∧ MS_ASYNC &&& MS_INVALIDATE = 0) ∧
    (MS_SYNC &&& MS_ASYNC = 0 ∧ MS_SYNC &&& MS_SYNC ≠ 0 ∧ MS_SYNC &&& MS_INVALIDATE = 0) ∧
    ((MS_ASYNC ||| MS_INVALIDATE) &&& MS_ASYNC ≠ 0 ∧ (MS_ASYNC ||| MS_INVALIDATE) &&& MS_SYNC = 0 ∧
      (MS_ASYNC ||| MS_INVALIDATE) &&& MS_INVALIDATE ≠ 0) ∧
    ((MS_SYNC ||| MS_INVALIDATE) &&& MS_ASYNC = 0 ∧ (MS_SYNC ||| MS_INVALIDATE) &&& MS_SYNC ≠ 0 ∧
      (MS_SYNC ||| MS_INVALIDATE) &&& MS_INVALIDATE ≠ 0) := by
  decide

/-- C9: each `MAP_*` modifier is a power of two; the modifiers, `MAP_SHARED`,
`MAP_PRIVATE` and the default `MAP_ANONYMOUS` are pairwise distinct; for two
sets of these constants the ORs agree exactly when the sets do; the OR of a
set is its arithmetic sum; and the OR of all of them is 0x1FF923, below 2^31,
so every combination is below 2^31. -/
theorem map_flags_independent (A B : Finset Nat) (hA : A ⊆ mapFlags) (hB : B ⊆ mapFlags) :
    (MAP_GROWSDOWN = 2 ^ 8 ∧ MAP_DENYWRITE = 2 ^ 11 ∧ MAP_EXECUTABLE = 2 ^ 12 ∧
      MAP_LOCKED = 2 ^ 13 ∧ MAP_NORESERVE = 2 ^ 14 ∧ MAP_POPULATE = 2 ^ 15 ∧
      MAP_NONBLOCK = 2 ^ 16 ∧ MAP_STACK = 2 ^ 17 ∧ MAP_HUGETLB = 2 ^ 18 ∧ MAP_SYNC = 2 ^ 19 ∧
      MAP_FIXED_NOREPLACE = 2 ^ 20) ∧
    [MAP_GROWSDOWN, MAP_DENYWRITE, MAP_EXECUTABLE, MAP_LOCKED, MAP_NORESERVE, MAP_POPULATE,
      MAP_NONBLOCK, MAP_STACK, MAP_HUGETLB, MAP_SYNC, MAP_FIXED_NOREPLACE,
      MAP_SHARED, MAP_PRIVATE, MAP_ANONYMOUS none].Nodup ∧
    (orAll A = orAll B ↔ A = B) ∧
    orAll A = A.sum id ∧
    orAll mapFlags = 0x1FF923 ∧ 0x1FF923 < 2 ^ 31 ∧
    orAll A < 2 ^ 31 := by
  refine ⟨by decide, by decide, ⟨orAll_injOn bitDisjoint_mapFlags hA hB, fun h => h ▸ rfl⟩,
    orAll_eq_sum bitDisjoint_mapFlags A hA, by decide, by decide, ?_⟩
  have hle := orAll_le_of_subset bitDisjoint_mapFlags hA
  have hall : orAll mapFlags = 0x1FF923 := by decide
  omega

/-- C9, at a concrete input: private+stack+populate against shared. -/
theorem map_flags_independent_witness :
    ({MAP_PRIVATE, MAP_STACK, MAP_POPULATE} : Finset Nat) ⊆ mapFlags ∧
    ({MAP_SHARED} : Finset Nat) ⊆ mapFlags ∧
    orAll {MAP_PRIVATE, MAP_STACK, MAP_POPULATE}
      = ({MAP_PRIVATE, MAP_STACK, MAP_POPULATE} : Finset Nat).sum id ∧
    orAll {MAP_PRIVATE, MAP_STACK, MAP_POPULATE} < 2 ^ 31 :=
  ⟨by decide, by decide,
    (map_flags_independent {MAP_PRIVATE, MAP_STACK, MAP_POPULATE} {MAP_SHARED}
      (by decide) (by decide)).2.2.2.1,
    (map_flags_independent {MAP_PRIVATE, MAP_STACK, MAP_POPULATE} {MAP_SHARED}
      (by decide) (by decide)).2.2.2.2.2.2⟩

/-! ## The offset parameter of `mmap` -/

/-- C5, refuted as stated: in the configuration without
`__USE_FILE_OFFSET64` (here with `__USE_LARGEFILE64`, so that `mmap64` is
declared too) on a platform whose `__off_t` is 32 bits wide, the offset
parameter of `mmap` is the 32-bit `__off_t` while that of `mmap64` is 64 bits
wide. -/
theorem mmap_offset_32_bits :
    mmapOffsetType ⟨false, false, true, false, false, false⟩ = some CType.__off_t ∧
    mmapOffsetBits ⟨32, 64⟩ ⟨false, false, true, false, false, false⟩ = some 32 ∧
    mmap64OffsetBits ⟨32, 64⟩ ⟨false, false, true, false, false, false⟩ = some 64 ∧
    mmapOffsetBits ⟨32, 64⟩ ⟨false, false, true, false, false, false⟩ ≠
      mmap64OffsetBits ⟨32, 64⟩ ⟨false, false, true, false, false, false⟩ := by
  decide

/-- C5, amended: without `__USE_FILE_OFFSET64` the offset parameter of
`mmap` has the platform's type `__off_t`; with it, `mmap` has the offset type
`__off64_t` of `mmap64` whenever it is declared (through `__REDIRECT_NTH`, or
as the macro for `mmap64` under `__USE_LARGEFILE64`) and has no declaration
otherwise; so the offset of `mmap` is 64 bits wide in every configuration
only where both `__off_t` and `__off64_t` are. Where `mmap` is declared its
offset type is the one `off_t` names. -/
theorem mmap_offset_type (c : Config) (p : Platform) :
    (c.__USE_FILE_OFFSET64 = false →
      mmapOffsetType c = some CType.__off_t ∧ mmapOffsetBits p c = some p.__off_t_bits) ∧
    (c.__USE_FILE_OFFSET64 = true → (c.__REDIRECT_NTH = true ∨ c.__USE_LARGEFILE64 = true) →
      mmapOffsetType c = some CType.__off64_t ∧ mmapOffsetBits p c = some p.__off64_t_bits) ∧
    (c.__USE_FILE_OFFSET64 = true → c.__REDIRECT_NTH = false → c.__USE_LARGEFILE64 = false →
      findDecl c "mmap" = none) ∧
    (c.__USE_LARGEFILE64 = true →
      mmap64OffsetType c = some CType.__off64_t ∧
      mmap64OffsetBits p c = some p.__off64_t_bits) ∧
    (∀ t, mmapOffsetType c = some t → t = off_t c) ∧
    (p.__off_t_bits = 64 → p.__off64_t_bits = 64 →
      ∀ n, mmapOffsetBits p c = some n → n = 64) := by
  have hoff : ∀ c : Config, ∀ t, mmapOffsetType c = some t → t = off_t c := by
    decide
  have key : ∀ c : Config,
      (c.__USE_FILE_OFFSET64 = false → mmapOffsetType c = some CType.__off_t) ∧
      (c.__USE_FILE_OFFSET64 = true →
        (c.__REDIRECT_NTH = true ∨ c.__USE_LARGEFILE64 = true) →
        mmapOffsetType c = some CType.__off64_t) ∧
      (c.__USE_FILE_OFFSET64 = true → c.__REDIRECT_NTH = false →
        c.__USE_LARGEFILE64 = false → findDecl c "mmap" = none) ∧
      (c.__USE_LARGEFILE64 = true → mmap64OffsetType c = some CType.__off64_t) := by
    decide
  obtain ⟨k1, k2, k3, k4⟩ := key c
  refine ⟨fun h => ⟨k1 h, ?_⟩, fun h h2 => ⟨k2 h h2, ?_⟩, k3, fun h => ⟨k4 h, ?_⟩, hoff c, ?_⟩
  · simp [mmapOffsetBits, k1 h, offsetBits]
  · simp [mmapOffsetBits, k2 h h2, offsetBits]
  · simp [mmap64OffsetBits, k4 h, offsetBits]
  · intro h32 h64 n hn
    cases hfo : c.__USE_FILE_OFFSET64
    · simp [mmapOffsetBits, k1 hfo, offsetBits] at hn
      omega
    · cases hrn : c.__REDIRECT_NTH
      · cases hlf : c.__USE_LARGEFILE64
        · simp [mmapOffsetBits, mmapOffsetType, k3 hfo hrn hlf] at hn
        · simp [mmapOffsetBits, k2 hfo (Or.inr hlf), offsetBits] at hn
          omega
      · simp [mmapOffsetBits, k2 hfo (Or.inl hrn), offsetBits] at hn
        omega

/-! ## The vocabulary of mapping flags -/

/-- C6, evaluated on the header: no configuration defines a macro named
`MAP_FIXED`, although the flag table does define `MAP_FIXED_NOREPLACE`,
`MAP_LOCKED`, `MAP_NORESERVE`, `MAP_POPULATE`, `MAP_NONBLOCK`,
`MAP_GROWSDOWN`, `MAP_STACK`, `MAP_HUGETLB` and `MAP_SYNC`. -/
theorem MAP_FIXED_not_defined (c : Config) (a : Option Nat) :
    "MAP_FIXED" ∉ definedNames c a ∧ flagValue a "MAP_FIXED" = none ∧
    (flagValue a "MAP_FIXED_NOREPLACE" = some MAP_FIXED_NOREPLACE ∧
      flagValue a "MAP_LOCKED" = some MAP_LOCKED ∧
      flagValue a "MAP_NORESERVE" = some MAP_NORESERVE ∧
      flagValue a "MAP_POPULATE" = some MAP_POPULATE ∧
      flagValue a "MAP_NONBLOCK" = some MAP_NONBLOCK ∧
      flagValue a "MAP_GROWSDOWN" = some MAP_GROWSDOWN ∧
      flagValue a "MAP_STACK" = some MAP_STACK ∧
      flagValue a "MAP_HUGETLB" = some MAP_HUGETLB ∧
      flagValue a "MAP_SYNC" = some MAP_SYNC) := by
  refine ⟨?_, rfl, rfl, rfl, rfl, rfl, rfl, rfl, rfl, rfl, rfl⟩
  have hn : ∀ b : Bool, "MAP_FIXED" ∉
      ["_SYS_MMAN_H", "__need_size_t", "__off_t_defined", "__mode_t_defined"]
      ++ (flagDefines none).map Prod.fst ++ ["MAP_FAILED"] ++ (if b then ["mmap"] else []) := by
    intro b
    cases b <;> decide
  exact hn (mmapIsMacro c)

/-! ## The `__THROW` marker -/

/-- C8, refuted as stated: `shm_open` is declared in every configuration (here
the one with no feature macro defined) without the `__THROW` marker, and it
is not `msync`; so is `shm_unlink`. -/
theorem shm_open_without_THROW :
    decl_shm_open ∈ declarations ⟨false, false, false, false, false, false⟩ ∧
    decl_shm_open.nothrow = false ∧ decl_shm_open.name ≠ "msync" ∧
    ¬ (decl_shm_open.nothrow = false ↔ decl_shm_open.name = "msync") ∧
    decl_shm_unlink ∈ declarations ⟨false, false, false, false, false, false⟩ ∧
    ¬ (decl_shm_unlink.nothrow = false ↔ decl_shm_unlink.name = "msync") := by
  decide

/-- C8, amended: a function the header declares, in any configuration, is one
of the sixteen named ones, and it is declared without the `__THROW` marker if
and only if it is `msync`, `shm_open` or `shm_unlink`. -/
theorem nothrow_iff (c : Config) (d : FunDecl) (hd : d ∈ declarations c) :
    d.name ∈ ["mmap", "mmap64", "munmap", "mprotect", "msync", "madvise", "posix_madvise",
      "mlock", "munlock", "mlockall", "munlockall", "mincore", "mremap", "remap_file_pages",
      "shm_open", "shm_unlink"] ∧
    (d.nothrow = false ↔ d.name = "msync" ∨ d.name = "shm_open" ∨ d.name = "shm_unlink") := by
  have key : ∀ c : Config, ∀ d ∈ declarations c,
      d.name ∈ ["mmap", "mmap64", "munmap", "mprotect", "msync", "madvise", "posix_madvise",
        "mlock", "munlock", "mlockall", "munlockall", "mincore", "mremap", "remap_file_pages",
        "shm_open", "shm_unlink"] ∧
      (d.nothrow = false ↔
        d.name = "msync" ∨ d.name = "shm_open" ∨ d.name = "shm_unlink") := by
    decide
  exact key c d hd

/-- C8, at a concrete input: `msync` and `mremap` in the configuration that
   defines every feature macro. -/
theorem nothrow_iff_witness :
    decl_msync ∈ declarations ⟨true, true, true, true, true, true⟩ ∧
    decl_msync.nothrow = false ∧
    (decl_mremap.nothrow = false ↔ decl_mremap.name = "msync" ∨
      decl_mremap.name = "shm_open" ∨ decl_mremap.name = "shm_unlink") :=
  ⟨by decide, rfl,
    (nothrow_iff ⟨true, true, true, true, true, true⟩ decl_mremap (by decide)).2⟩

/-! ## The failure sentinel -/

/-- C10: for every pointer width w >= 1, `MAP_FAILED` is the address 2^w - 1,
which is not the null address and is not a multiple of any page size p >= 2,
a page size being a power of two 2^k (the statement holds for every even p as
well); so `MAP_FAILED` is never equal to a page-aligned address. -/
theorem MAP_FAILED_not_page_aligned (w : Nat) (hw : 1 ≤ w) :
    MAP_FAILED w = 2 ^ w - 1 ∧ MAP_FAILED w ≠ 0 ∧
    (∀ k : Nat, 2 ≤ 2 ^ k →
      (¬ 2 ^ k ∣ MAP_FAILED w) ∧ ∀ addr : Nat, 2 ^ k ∣ addr → addr ≠ MAP_FAILED w) ∧
    (∀ p : Nat, 2 ≤ p → 2 ∣ p →
      (¬ p ∣ MAP_FAILED w) ∧ ∀ addr : Nat, p ∣ addr → addr ≠ MAP_FAILED w) := by
  have hodd := MAP_FAILED_odd w hw
  have heven : ∀ p : Nat, 2 ≤ p → 2 ∣ p →
      (¬ p ∣ MAP_FAILED w) ∧ ∀ addr : Nat, p ∣ addr → addr ≠ MAP_FAILED w := by
    intro p _ h2
    have hnd : ¬ p ∣ MAP_FAILED w := by
      intro hp
      have := Nat.dvd_trans h2 hp
      omega
    exact ⟨hnd, fun addr ha e => hnd (e ▸ ha)⟩
  refine ⟨MAP_FAILED_eq w, by omega, ?_, heven⟩
  intro k hk
  have hk1 : k ≠ 0 := by
    rintro rfl
    simp at hk
  exact heven (2 ^ k) hk (dvd_pow_self 2 hk1)

/-- C10, at a concrete input: 64-bit pointers and 4096-byte pages. -/
theorem MAP_FAILED_not_page_aligned_witness :
    MAP_FAILED 64 = 18446744073709551615 ∧ MAP_FAILED 64 ≠ 0 ∧
    ¬ 2 ^ 12 ∣ MAP_FAILED 64 ∧ ∀ addr : Nat, 2 ^ 12 ∣ addr → addr ≠ MAP_FAILED 64 :=
  ⟨by decide, (MAP_FAILED_not_page_aligned 64 (by decide)).2.1,
    ((MAP_FAILED_not_page_aligned 64 (by decide)).2.2.1 12 (by decide)).1,
    ((MAP_FAILED_not_page_aligned 64 (by decide)).2.2.1 12 (by decide)).2⟩

end Mman
